import Mathlib

/-!
Verification of the streaming-music engine of the `ears` repository
(`src/music.rs`).  The development is a shallow embedding: the `Music`
struct, `Music::new`, `AudioController::play`, `set_looping` /
`is_looping`, the body of the refill-worker loop spawned by
`process_music`, and the `Drop` impl are translated into executable Lean
definitions.  The external collaborators (OpenAL and libsndfile) are
opaque per the design, so every embedded function takes the collaborator
responses as explicit oracle arguments, mirroring the call sites in the
source.  A small interleaved two-thread machine models the caller thread
running `play(); play();` against the spawned worker thread, in order to
settle the cross-thread ownership claim about the decode handle.
-/

set_option autoImplicit false

/-- OpenAL transport states (`states::State`, i.e. `AL_INITIAL`,
`AL_PLAYING`, `AL_PAUSED`, `AL_STOPPED`), as matched in
`Music::get_state` (`music.rs` 304-316). -/
inductive ALState
  | initial
  | playing
  | paused
  | stopped
deriving DecidableEq

/-- The part of libsndfile's `SndInfo` that `music.rs` reads:
`samplerate` (line 146) and `channels` (line 113). -/
structure SndInfoM where
  samplerate : Int
  channels : Int
deriving DecidableEq

/-- Model of the `Music` struct (`music.rs` 60-82).  `file` is the
`Option<Box<SndFile>>` decode handle (an opaque numeric id),
`looping_sender` the `Option<Sender<bool>>` endpoint of the looping
command channel, and `thread_handle` the `Option<JoinHandle<()>>` of the
refill worker. -/
structure MusicM where
  al_source : Nat
  al_buffers : Nat × Nat
  file : Option Nat
  file_infos : SndInfoM
  sample_to_read : Int
  sample_format : Int
  sound_tags : Nat
  is_looping : Bool
  looping_sender : Option Unit
  thread_handle : Option Unit
deriving DecidableEq

/-- Collaborator responses consumed by `Music::new` (`music.rs` 94-141),
in call order: whether `check_openal_context!` succeeds, the result of
`SndFile::new(path, Read)` (`some` handle / `none` for `Err`), the
`SndInfo` of the file, the ids produced by `alGenSources` and
`alGenBuffers`, the result of `al::get_channels_format(infos.channels)`,
the result of `al::openal_has_error()`, and the tags read by
`get_sound_tags`. -/
structure NewOracle where
  ctxOk : Bool
  openResult : Option Nat
  infos : SndInfoM
  genSource : Nat
  genBuffers : Nat × Nat
  channelsFormat : Option Int
  alError : Option Nat
  tags : Nat
deriving DecidableEq

/-- `Music::new` (`music.rs` 94-141).  Every failure path prints a
message and returns `None`; on success all fields are initialised, with
`sample_to_read = 50000`, `is_looping = false`, and no sender or worker
handle yet. -/
def musicNew (o : NewOracle) : Option MusicM :=
  match o.ctxOk, o.openResult with
  | false, _ => none
  | true, none => none
  | true, some fileHandle =>
    match o.channelsFormat with
    | none => none
    | some fmt =>
      match o.alError with
      | some _ => none
      | none =>
        some { al_source := o.genSource
               al_buffers := o.genBuffers
               file := some fileHandle
               file_infos := o.infos
               sample_to_read := 50000
               sample_format := fmt
               sound_tags := o.tags
               is_looping := false
               looping_sender := none
               thread_handle := none }

/-- The reason a given `Music::new` oracle makes construction fail, read
off the branch conditions of `music.rs` 94-141 in source order:
context-check failure, `SndFile::new` error, unrecognised channel
format, or a pending OpenAL error; `none` when construction succeeds. -/
inductive FailCause
  | noContext
  | openFailed
  | unsupportedFormat
  | hardwareError
deriving DecidableEq

/-- Classifies a `NewOracle` by the first failing check of `Music::new`
(`music.rs` 96, 98-101, 113-119, 122-125). -/
def failCause (o : NewOracle) : Option FailCause :=
  if o.ctxOk = false then some FailCause.noContext
  else if o.openResult.isNone then some FailCause.openFailed
  else if o.channelsFormat.isNone then some FailCause.unsupportedFormat
  else if o.alError.isSome then some FailCause.hardwareError
  else none

/-- One `std::sync::mpsc` channel state is a FIFO queue of the sent,
not-yet-received values (Rust's `channel()` is asynchronous and
infinitely buffered). -/
def channelSendVal (q : List Bool) (v : Bool) : List Bool := q ++ [v]

/-- `Receiver::try_recv` on the FIFO queue paired with the worker's
local flag: dequeues the oldest value into the flag if one is present,
otherwise keeps the prior flag (`music.rs` 199-201). -/
def pollOnce : List Bool × Bool → List Bool × Bool
  | ([], f) => ([], f)
  | (v :: rest, _) => (rest, v)

/-- Iterates `pollOnce` `n` times: the flag value the worker holds after
`n` polling intervals in which it performed its non-blocking receive. -/
def pollN : Nat → List Bool × Bool → List Bool × Bool
  | 0, s => s
  | n + 1, s => pollN n (pollOnce s)

/-- `AudioController::set_looping` for `Music` (`music.rs` 416-421):
if a sender exists, send the value over the channel (enqueue on the FIFO
`q`), and in all cases set the local `is_looping` field. -/
def setLooping (m : MusicM) (q : List Bool) (looping : Bool) : MusicM × List Bool :=
  ({ m with is_looping := looping },
   match m.looping_sender with
   | some _ => channelSendVal q looping
   | none => q)

/-- `AudioController::is_looping` for `Music` (`music.rs` 429-431):
returns the local `is_looping` field. -/
def isLoopingQuery (m : MusicM) : Bool := m.is_looping

/-- Folds `set_looping` over a list of requested values: the effect of
issuing several `set_looping` calls in succession from the caller
thread, starting from channel content `q`. -/
def sendAll (m : MusicM) (q : List Bool) (bs : List Bool) : MusicM × List Bool :=
  bs.foldl (fun mq b => setLooping mq.1 mq.2 b) (m, q)

/-- Caller-thread actions performed by `play` and `process_music`
(`music.rs` 250-265 and 143-230), in program order. -/
inductive CAction
  | sourcePlay
  | sourceStop
  | sleep50
  | fileSeek0
  | fileRead
  | queueBuffers
  | spawnWorker
  | fileCloneSend
deriving DecidableEq

/-- The caller-side action sequence of `Music::process_music`
(`music.rs` 143-230): read and fill buffer 1, read and fill buffer 2,
queue both buffers, start the source, spawn the worker thread, then
clone the retained `SndFile` and send the clone to the worker. -/
def processMusicActions : List CAction :=
  [CAction.fileRead, CAction.fileRead, CAction.queueBuffers,
   CAction.sourcePlay, CAction.spawnWorker, CAction.fileCloneSend]

/-- `AudioController::play` for `Music` (`music.rs` 250-265).  `st1` is
the state returned by the `get_state()` call in the `match`, `st2` the
state behind the `is_playing()` re-query: `Paused` resumes the source
directly and returns; any other state stops the source and sleeps 50 ms
when `is_playing()`, then seeks the decode handle to frame 0 and runs
`process_music`. -/
def playActions (st1 st2 : ALState) : List CAction :=
  if st1 = ALState.paused then [CAction.sourcePlay]
  else
    (if st2 = ALState.playing then [CAction.sourceStop, CAction.sleep50] else [])
      ++ CAction.fileSeek0 :: processMusicActions

/-- Actions of the `Drop` impl for `Music` (`music.rs` 671-684). -/
inductive DropAction
  | stopSource
  | joinWorker
  | unbindBuffer
  | deleteBuffers
  | deleteSource
deriving DecidableEq

/-- Marks the drop actions that release the hardware objects: the
buffer unbind and the two `alDelete*` calls of the `unsafe` block. -/
def isRelease : DropAction → Bool
  | DropAction.unbindBuffer => true
  | DropAction.deleteBuffers => true
  | DropAction.deleteSource => true
  | _ => false

/-- The action sequence of `Drop for Music` (`music.rs` 673-683):
`self.stop()` (which issues `alSourceStop` when the context check
passes, `ctxOk`), then `handle.join()` if `thread_handle` is `Some`,
then unbind the buffer, delete the two buffers, delete the source. -/
def dropActions (ctxOk : Bool) (m : MusicM) : List DropAction :=
  (if ctxOk then [DropAction.stopSource] else [])
    ++ (match m.thread_handle with
        | some _ => [DropAction.joinWorker]
        | none => [])
    ++ [DropAction.unbindBuffer, DropAction.deleteBuffers, DropAction.deleteSource]

/-- Actions of one iteration of the refill-worker loop
(`music.rs` 195-225). -/
inductive WAction
  | sleep50
  | tryRecv
  | getProcessed
  | unqueueBuffer
  | fileRead
  | fileSeek0
  | bufferData (len : Int)
  | queueBuffer
  | getState
  | alErrorCheck
deriving DecidableEq

/-- Inputs of one worker-loop iteration (`music.rs` 195-225): the
worker's `status` variable at the top of the loop, its local
`is_looping` flag, the channel queue, and the oracle responses of this
iteration: `AL_BUFFERS_PROCESSED` count, frames returned by the first
`read_i16`, frames returned by the `read_i16` after `seek(0, SeekSet)`,
and the state returned by `alGetState` at the end of the body. -/
structure WIn where
  status : ALState
  is_looping : Bool
  queue : List Bool
  processed : Int
  readFirst : Int
  readSeek : Int
  newStatus : ALState
deriving DecidableEq

/-- Outputs of one worker-loop iteration: the emitted actions, the
updated local flag and channel queue, the updated `status` variable,
and whether the `while status != AL_STOPPED` loop runs again. -/
structure WOut where
  actions : List WAction
  is_looping : Bool
  queue : List Bool
  status : ALState
  continues : Bool
deriving DecidableEq

/-- One iteration of the worker loop body (`music.rs` 195-225): sleep
50 ms; if the last observed status is `AL_PLAYING`, perform the
non-blocking receive of the looping flag and query the processed-buffer
count; if that count is non-zero, unqueue one buffer, read a chunk, on
a zero-frame read with looping enabled seek to 0 and read again, fill
the buffer with the bytes read (`frames * size_of::<i16>()`, possibly
0) and re-queue it; finally re-query the source state.  The loop exits
when the new status is `AL_STOPPED`. -/
def workerIteration (w : WIn) : WOut :=
  if w.status = ALState.playing then
    if w.processed ≠ 0 then
      if (pollOnce (w.queue, w.is_looping)).2 = true ∧ w.readFirst = 0 then
        { actions := [WAction.sleep50, WAction.tryRecv, WAction.getProcessed,
                      WAction.unqueueBuffer, WAction.fileRead, WAction.fileSeek0,
                      WAction.fileRead, WAction.bufferData (2 * w.readSeek),
                      WAction.queueBuffer, WAction.getState]
          is_looping := (pollOnce (w.queue, w.is_looping)).2
          queue := (pollOnce (w.queue, w.is_looping)).1
          status := w.newStatus
          continues := decide (w.newStatus ≠ ALState.stopped) }
      else
        { actions := [WAction.sleep50, WAction.tryRecv, WAction.getProcessed,
                      WAction.unqueueBuffer, WAction.fileRead,
                      WAction.bufferData (2 * w.readFirst),
                      WAction.queueBuffer, WAction.getState]
          is_looping := (pollOnce (w.queue, w.is_looping)).2
          queue := (pollOnce (w.queue, w.is_looping)).1
          status := w.newStatus
          continues := decide (w.newStatus ≠ ALState.stopped) }
    else
      { actions := [WAction.sleep50, WAction.tryRecv, WAction.getProcessed,
                    WAction.getState]
        is_looping := (pollOnce (w.queue, w.is_looping)).2
        queue := (pollOnce (w.queue, w.is_looping)).1
        status := w.newStatus
        continues := decide (w.newStatus ≠ ALState.stopped) }
  else
    { actions := [WAction.sleep50, WAction.getState]
      is_looping := w.is_looping
      queue := w.queue
      status := w.newStatus
      continues := decide (w.newStatus ≠ ALState.stopped) }

/-- Program counter of the caller thread running the scenario
`Music::new(..); m.play(); m.play();` over `music.rs` 250-265 and
143-230, truncated right after the second `play`'s
`self.file.as_mut().unwrap().seek(0, SeekSet)` (line 261). -/
inductive CPhase
  | getState1
  | isPlaying1
  | stop1
  | sleepC1
  | seek1
  | prime1
  | prime2
  | queueBufs1
  | srcPlay1
  | spawn1
  | cloneSend1
  | getState2
  | isPlaying2
  | stop2
  | sleepC2
  | seek2
  | done
deriving DecidableEq

/-- Program counter of the spawned worker thread (`music.rs` 183-227):
blocked on `port.recv()`, then the `while status != AL_STOPPED` loop,
then the buffer unbind and thread exit. -/
inductive WPhase
  | notStarted
  | recvHandoff
  | top
  | sleepW
  | tryRecvW
  | getProc
  | unqueueW
  | readW
  | bufDataW
  | queueW
  | getStateW
  | unbindW
  | exited
deriving DecidableEq

/-- Observable events of the two-thread machine: accesses to the
underlying libsndfile handle from either thread (the worker holds a
`clone` of the caller's `Box<SndFile>`, i.e. a copy of the same raw
handle), worker spawn and worker exit. -/
inductive Ev
  | callerFile
  | workerFile
  | workerSpawn
  | workerExit
  | tau
deriving DecidableEq

/-- Joint state of the interleaved machine: the OpenAL source transport
state, both program counters, the worker's local `status` variable, and
whether the handoff `chan.send(*file)` has happened. -/
structure Sys where
  al : ALState
  cphase : CPhase
  wphase : WPhase
  wStatus : ALState
  handoffSent : Bool
deriving DecidableEq

/-- `AL_BUFFERS_PROCESSED` response modelled from OpenAL semantics: a
playing source has processed a buffer by the time the worker polls, and
stopping a source marks all (two) queued buffers processed. -/
def procOf : ALState → Int
  | ALState.playing => 1
  | ALState.stopped => 2
  | _ => 0

/-- One step of the caller thread: the statements of `play`
(`music.rs` 250-265) followed by `process_music` (`music.rs` 143-230),
executed twice in sequence.  `get_state`/`is_playing` read the current
source state; `alSourceStop` and `alSourcePlay` write it; the `seek`
and the two priming `read_i16` calls touch the decode handle; `spawn`
starts the worker and the subsequent clone-and-send publishes the
handle copy to it. -/
def callerStep (s : Sys) : Option (Sys × Ev) :=
  match s.cphase with
  | CPhase.getState1 =>
    if s.al = ALState.paused then
      some ({ s with al := ALState.playing, cphase := CPhase.getState2 }, Ev.tau)
    else some ({ s with cphase := CPhase.isPlaying1 }, Ev.tau)
  | CPhase.isPlaying1 =>
    if s.al = ALState.playing then some ({ s with cphase := CPhase.stop1 }, Ev.tau)
    else some ({ s with cphase := CPhase.seek1 }, Ev.tau)
  | CPhase.stop1 => some ({ s with al := ALState.stopped, cphase := CPhase.sleepC1 }, Ev.tau)
  | CPhase.sleepC1 => some ({ s with cphase := CPhase.seek1 }, Ev.tau)
  | CPhase.seek1 => some ({ s with cphase := CPhase.prime1 }, Ev.callerFile)
  | CPhase.prime1 => some ({ s with cphase := CPhase.prime2 }, Ev.callerFile)
  | CPhase.prime2 => some ({ s with cphase := CPhase.queueBufs1 }, Ev.callerFile)
  | CPhase.queueBufs1 => some ({ s with cphase := CPhase.srcPlay1 }, Ev.tau)
  | CPhase.srcPlay1 => some ({ s with al := ALState.playing, cphase := CPhase.spawn1 }, Ev.tau)
  | CPhase.spawn1 =>
    some ({ s with wphase := WPhase.recvHandoff, wStatus := ALState.playing,
                   cphase := CPhase.cloneSend1 }, Ev.workerSpawn)
  | CPhase.cloneSend1 => some ({ s with handoffSent := true, cphase := CPhase.getState2 }, Ev.tau)
  | CPhase.getState2 =>
    if s.al = ALState.paused then
      some ({ s with al := ALState.playing, cphase := CPhase.done }, Ev.tau)
    else some ({ s with cphase := CPhase.isPlaying2 }, Ev.tau)
  | CPhase.isPlaying2 =>
    if s.al = ALState.playing then some ({ s with cphase := CPhase.stop2 }, Ev.tau)
    else some ({ s with cphase := CPhase.seek2 }, Ev.tau)
  | CPhase.stop2 => some ({ s with al := ALState.stopped, cphase := CPhase.sleepC2 }, Ev.tau)
  | CPhase.sleepC2 => some ({ s with cphase := CPhase.seek2 }, Ev.tau)
  | CPhase.seek2 => some ({ s with cphase := CPhase.done }, Ev.callerFile)
  | CPhase.done => none

/-- One step of the worker thread (`music.rs` 183-227): blocked on
`port.recv()` until the handoff is sent; then the loop: exit check
against the local `status`, 50 ms sleep, the `status == AL_PLAYING`
guard, `try_recv`, processed-count query, and when non-zero the
unqueue / `read_i16` / `alBufferData` / re-queue sequence; then
`status = alGetState(..)`; on exit, unbind and terminate. -/
def workerStep (s : Sys) : Option (Sys × Ev) :=
  match s.wphase with
  | WPhase.notStarted => none
  | WPhase.recvHandoff =>
    if s.handoffSent then some ({ s with wphase := WPhase.top }, Ev.tau) else none
  | WPhase.top =>
    if s.wStatus = ALState.stopped then some ({ s with wphase := WPhase.unbindW }, Ev.tau)
    else some ({ s with wphase := WPhase.sleepW }, Ev.tau)
  | WPhase.sleepW =>
    if s.wStatus = ALState.playing then some ({ s with wphase := WPhase.tryRecvW }, Ev.tau)
    else some ({ s with wphase := WPhase.getStateW }, Ev.tau)
  | WPhase.tryRecvW => some ({ s with wphase := WPhase.getProc }, Ev.tau)
  | WPhase.getProc =>
    if procOf s.al ≠ 0 then some ({ s with wphase := WPhase.unqueueW }, Ev.tau)
    else some ({ s with wphase := WPhase.getStateW }, Ev.tau)
  | WPhase.unqueueW => some ({ s with wphase := WPhase.readW }, Ev.tau)
  | WPhase.readW => some ({ s with wphase := WPhase.bufDataW }, Ev.workerFile)
  | WPhase.bufDataW => some ({ s with wphase := WPhase.queueW }, Ev.tau)
  | WPhase.queueW => some ({ s with wphase := WPhase.getStateW }, Ev.tau)
  | WPhase.getStateW => some ({ s with wphase := WPhase.top, wStatus := s.al }, Ev.tau)
  | WPhase.unbindW => some ({ s with wphase := WPhase.exited }, Ev.workerExit)
  | WPhase.exited => none

/-- One scheduler step: `true` runs the caller thread, `false` the
worker thread; `none` when the chosen thread is blocked or finished. -/
def sysStep (s : Sys) (c : Bool) : Option (Sys × Ev) :=
  if c then callerStep s else workerStep s

/-- Runs a schedule (list of thread choices) from a state, collecting
the event trace; `none` if the schedule picks a blocked thread. -/
def execEv : Sys → List Bool → Option (Sys × List Ev)
  | s, [] => some (s, [])
  | s, c :: rest =>
    match sysStep s c with
    | none => none
    | some (s', e) =>
      match execEv s' rest with
      | none => none
      | some (s'', evs) => some (s'', e :: evs)

/-- Initial state: fresh `Music` (source in `AL_INITIAL`), caller about
to run its first `play()`, worker not yet spawned. -/
def initSys : Sys :=
  { al := ALState.initial, cphase := CPhase.getState1, wphase := WPhase.notStarted,
    wStatus := ALState.playing, handoffSent := false }

/-- Scans an event trace and reports whether the caller thread accessed
the decode handle while a spawned worker had not yet exited — the
ownership discipline the specification requires to never happen. -/
def violatesOwnershipGo : Bool → List Ev → Bool
  | _, [] => false
  | active, e :: rest =>
    match e with
    | Ev.workerSpawn => violatesOwnershipGo true rest
    | Ev.workerExit => violatesOwnershipGo false rest
    | Ev.callerFile => active || violatesOwnershipGo active rest
    | _ => violatesOwnershipGo active rest

/-- Top-level entry of the ownership scan: no worker active at start. -/
def violatesOwnership (evs : List Ev) : Bool := violatesOwnershipGo false evs

/-- A concrete schedule for `play(); play();`: the caller runs its first
`play` to completion, the worker wakes and reaches its processed-count
query, the caller's second `play` observes `Playing`, stops the source
and sleeps, the worker (seeing two processed buffers after the stop)
reads the decode handle, and the caller then seeks the same handle. -/
def raceChoices : List Bool :=
  List.replicate 9 true ++ List.replicate 4 false ++ List.replicate 3 true
    ++ List.replicate 3 false ++ [true, true]

/-- Draining helper: after as many polls as there are queued values, the
worker's flag equals the last queued value (or its prior flag when the
queue was empty) and the queue is empty. -/
theorem pollN_drain (q : List Bool) (f : Bool) :
    pollN q.length (q, f) = ([], q.getLastD f) := by
  induction q generalizing f with
  | nil => rfl
  | cons v rest ih =>
    simp only [List.length_cons, pollN, pollOnce, List.getLastD_cons]
    exact ih v

/-- Queueing helper: a sequence of `set_looping` calls with a live
sender appends the requested values, in order, to the channel queue. -/
theorem sendAll_queue (m : MusicM) (q : List Bool) (bs : List Bool)
    (h : m.looping_sender.isSome = true) :
    (sendAll m q bs).2 = q ++ bs := by
  induction bs generalizing m q with
  | nil => simp [sendAll]
  | cons b rest ih =>
    obtain ⟨u, hu⟩ := Option.isSome_iff_exists.mp h
    have step : setLooping m q b = ({ m with is_looping := b }, q ++ [b]) := by
      simp [setLooping, channelSendVal, hu]
    have tail : sendAll m q (b :: rest)
        = sendAll { m with is_looping := b } (q ++ [b]) rest := by
      simp [sendAll, step]
    rw [tail, ih { m with is_looping := b } (q ++ [b]) (by simp [hu])]
    simp

/-- Claim C1: when a `Music` value is dropped, the destructor first
issues a stop to the hardware source, then joins the worker thread (if
any), and only afterwards unbinds and deletes the two hardware buffers
and the hardware source; no release action precedes the join.  Stated
over `dropActions` with the OpenAL context available, as it is for any
successfully constructed `Music`. -/
theorem c1_drop_join_before_release (m : MusicM) :
    (dropActions true m).head? = some DropAction.stopSource ∧
    (m.thread_handle.isSome = true →
      List.Sublist [DropAction.joinWorker, DropAction.unbindBuffer,
        DropAction.deleteBuffers, DropAction.deleteSource] (dropActions true m) ∧
      (dropActions true m).indexOf DropAction.joinWorker
        < (dropActions true m).indexOf DropAction.unbindBuffer ∧
      (dropActions true m).indexOf DropAction.joinWorker
        < (dropActions true m).indexOf DropAction.deleteBuffers ∧
      (dropActions true m).indexOf DropAction.joinWorker
        < (dropActions true m).indexOf DropAction.deleteSource) ∧
    DropAction.deleteBuffers ∈ dropActions true m ∧
    DropAction.deleteSource ∈ dropActions true m := by
  cases hm : m.thread_handle <;> simp [dropActions, hm]

/-- Concrete check of `c1_drop_join_before_release` on a `Music` value
that has an active worker. -/
theorem c1_drop_join_before_release_w :
    (dropActions true
      { al_source := 1, al_buffers := (2, 3), file := some 7,
        file_infos := { samplerate := 44100, channels := 2 },
        sample_to_read := 50000, sample_format := 4, sound_tags := 0,
        is_looping := false, looping_sender := some (),
        thread_handle := some () }).head? = some DropAction.stopSource ∧
    List.Sublist [DropAction.joinWorker, DropAction.unbindBuffer,
      DropAction.deleteBuffers, DropAction.deleteSource]
      (dropActions true
        { al_source := 1, al_buffers := (2, 3), file := some 7,
          file_infos := { samplerate := 44100, channels := 2 },
          sample_to_read := 50000, sample_format := 4, sound_tags := 0,
          is_looping := false, looping_sender := some (),
          thread_handle := some () }) := by
  refine ⟨(c1_drop_join_before_release _).1, ?_⟩
  exact ((c1_drop_join_before_release _).2.1 (by decide)).1

/-- Claim C2 (refuted on the code): the specification demands that the
decode handle is never accessed from the caller thread while a spawned
worker has not yet exited, but `play` in a non-`Paused` state seeks the
retained `SndFile` unconditionally (`music.rs` 261) although the worker
holds a clone of the same raw handle (`music.rs` 228-229).  The
schedule `raceChoices` of the machine for `new; play(); play();` is
valid, its trace has a caller access to the handle after worker spawn
with no worker exit in between, and the worker has indeed not exited by
the end of the schedule. -/
theorem c2_decode_handle_race :
    (execEv initSys raceChoices).map (fun p => violatesOwnership p.2) = some true ∧
    (execEv initSys raceChoices).map (fun p => decide (p.1.wphase = WPhase.exited))
      = some false := by
  decide

/-- Claim C3: `play()` in `Paused` resumes the hardware source directly,
with no seek of the decode handle and no new worker; in any other state
(`Initial`, `Stopped`, `Playing`) it stops the source and sleeps 50 ms
exactly when the source was playing, then seeks the decode handle to
frame 0 and runs `process_music`, which starts a fresh refill worker.
Both `get_state()` reads of `play` observe the same state `st`. -/
theorem c3_play_behavior (st : ALState) :
    (st = ALState.paused →
      playActions st st = [CAction.sourcePlay] ∧
      CAction.fileSeek0 ∉ playActions st st ∧
      CAction.spawnWorker ∉ playActions st st) ∧
    (st ≠ ALState.paused →
      (st = ALState.playing →
        playActions st st
          = [CAction.sourceStop, CAction.sleep50, CAction.fileSeek0] ++ processMusicActions) ∧
      (st ≠ ALState.playing →
        playActions st st = CAction.fileSeek0 :: processMusicActions ∧
        CAction.sourceStop ∉ playActions st st) ∧
      CAction.fileSeek0 ∈ playActions st st ∧
      CAction.spawnWorker ∈ playActions st st) := by
  cases st <;> decide

/-- Concrete check of `c3_play_behavior`: the `Paused` and `Playing`
cases evaluated. -/
theorem c3_play_behavior_w :
    playActions ALState.paused ALState.paused = [CAction.sourcePlay] ∧
    playActions ALState.playing ALState.playing
      = [CAction.sourceStop, CAction.sleep50, CAction.fileSeek0] ++ processMusicActions :=
  ⟨((c3_play_behavior ALState.paused).1 rfl).1,
   ((c3_play_behavior ALState.playing).2 (by decide)).1 rfl⟩

/-- Claim C4: in a worker iteration that performs a read (last observed
status `Playing`, non-zero processed count), a zero-frame read with
looping enabled (after this iteration's `try_recv`) makes the worker
seek the decode handle to frame 0 and read again before filling the
buffer; with looping disabled the zero-length buffer is filled and
re-queued as-is, with no seek; in either case the loop runs again
exactly while the newly observed hardware state is not `Stopped`. -/
theorem c4_worker_eof_policy (w : WIn)
    (hpl : w.status = ALState.playing)
    (hproc : w.processed ≠ 0)
    (hread : w.readFirst = 0) :
    ((pollOnce (w.queue, w.is_looping)).2 = true →
      (workerIteration w).actions
        = [WAction.sleep50, WAction.tryRecv, WAction.getProcessed,
           WAction.unqueueBuffer, WAction.fileRead, WAction.fileSeek0,
           WAction.fileRead, WAction.bufferData (2 * w.readSeek),
           WAction.queueBuffer, WAction.getState]) ∧
    ((pollOnce (w.queue, w.is_looping)).2 = false →
      (workerIteration w).actions
        = [WAction.sleep50, WAction.tryRecv, WAction.getProcessed,
           WAction.unqueueBuffer, WAction.fileRead, WAction.bufferData 0,
           WAction.queueBuffer, WAction.getState] ∧
      WAction.fileSeek0 ∉ (workerIteration w).actions) ∧
    ((workerIteration w).continues = true ↔ w.newStatus ≠ ALState.stopped) := by
  by_cases hl : (pollOnce (w.queue, w.is_looping)).2 = true
  · refine ⟨fun _ => ?_, fun hfalse => ?_, ?_⟩
    · simp [workerIteration, hpl, hproc, hl, hread]
    · rw [hl] at hfalse; cases hfalse
    · simp [workerIteration, hpl, hproc, hl, hread]
  · have hl' : (pollOnce (w.queue, w.is_looping)).2 = false := by
      cases h : (pollOnce (w.queue, w.is_looping)).2
      · rfl
      · exact absurd h hl
    refine ⟨fun htrue => absurd htrue hl, fun _ => ?_, ?_⟩
    · constructor
      · simp [workerIteration, hpl, hproc, hl', hread]
      · simp [workerIteration, hpl, hproc, hl', hread]
    · simp [workerIteration, hpl, hproc, hl', hread]

/-- Concrete check of `c4_worker_eof_policy`: a zero-frame read with a
queued `true` looping command produces the seek-and-re-read sequence. -/
theorem c4_worker_eof_policy_w :
    (workerIteration
      { status := ALState.playing, is_looping := false, queue := [true],
        processed := 1, readFirst := 0, readSeek := 5,
        newStatus := ALState.playing }).actions
      = [WAction.sleep50, WAction.tryRecv, WAction.getProcessed,
         WAction.unqueueBuffer, WAction.fileRead, WAction.fileSeek0,
         WAction.fileRead, WAction.bufferData 10,
         WAction.queueBuffer, WAction.getState] :=
  (c4_worker_eof_policy
    { status := ALState.playing, is_looping := false, queue := [true],
      processed := 1, readFirst := 0, readSeek := 5,
      newStatus := ALState.playing } rfl (by decide) rfl).1 (by decide)

/-- A `Music` value whose worker is active, so `looping_sender` is
`Some` (the situation of the quick-succession `set_looping` claims). -/
def mWithSender : MusicM :=
  { al_source := 1, al_buffers := (2, 3), file := some 7,
    file_infos := { samplerate := 44100, channels := 2 },
    sample_to_read := 50000, sample_format := 4, sound_tags := 0,
    is_looping := false, looping_sender := some (), thread_handle := some () }

/-- Claim C5 (refuted on the code): the command channel is
`std::sync::mpsc::channel`, an unbounded FIFO, not a single-slot
last-write-wins cell.  After `set_looping(true); set_looping(false)` in
quick succession the channel holds two outstanding values (not at most
one), and the worker's single non-blocking receive of the next poll
interval observes `true`, the first value — not the last value
`false` — so convergence to the last value takes two poll intervals. -/
theorem c5_not_single_slot_cex :
    (setLooping (setLooping mWithSender [] true).1 (setLooping mWithSender [] true).2 false).2
      = [true, false] ∧
    ((setLooping (setLooping mWithSender [] true).1
        (setLooping mWithSender [] true).2 false).2).length = 2 ∧
    (pollOnce ((setLooping (setLooping mWithSender [] true).1
        (setLooping mWithSender [] true).2 false).2, false)).2 = true := by
  decide

/-- Claim C5 (amended): the command channel is an unbounded FIFO with
the worker consuming at most one value per poll; a run of `set_looping`
calls with a live sender enqueues all requested values in order, and
the worker's flag converges to the last sent value after as many polls
as there are queued values (one poll interval per outstanding value),
not within one interval. -/
theorem c5_channel_fifo_converges (m : MusicM) (q bs : List Bool) (f : Bool)
    (h : m.looping_sender.isSome = true) :
    (sendAll m q bs).2 = q ++ bs ∧
    pollN (q ++ bs).length (q ++ bs, f) = ([], (q ++ bs).getLastD f) :=
  ⟨sendAll_queue m q bs h, pollN_drain (q ++ bs) f⟩

/-- Concrete check of `c5_channel_fifo_converges`: two quick
`set_looping` calls on an empty channel enqueue both values and the
flag reaches the last value `false` after two polls. -/
theorem c5_channel_fifo_converges_w :
    (sendAll mWithSender [] [true, false]).2 = [] ++ [true, false] ∧
    pollN ([] ++ [true, false]).length ([] ++ [true, false], false)
      = ([], ([] ++ [true, false]).getLastD false) :=
  c5_channel_fifo_converges mWithSender [] [true, false] false (by decide)

/-- Oracle that fails `Music::new` at the `SndFile::new` call. -/
def oOpenFail : NewOracle :=
  { ctxOk := true, openResult := none, infos := { samplerate := 44100, channels := 2 },
    genSource := 1, genBuffers := (2, 3), channelsFormat := some 4,
    alError := none, tags := 0 }

/-- Oracle that fails `Music::new` at the channel-format mapping. -/
def oFormatFail : NewOracle :=
  { oOpenFail with openResult := some 7, channelsFormat := none }

/-- Claim C6 (refuted on the code): `Music::new` returns
`Option<Music>`, so an open failure and an unsupported channel layout
produce the identical failure value `None` — the failure is not
distinguishable by error kind. -/
theorem c6_failures_indistinguishable_cex :
    musicNew oOpenFail = musicNew oFormatFail ∧
    failCause oOpenFail = some FailCause.openFailed ∧
    failCause oFormatFail = some FailCause.unsupportedFormat := by
  decide

/-- Claim C6 (amended): `Music::new` either returns a fully-built value
(every field initialised, including the open decode handle) or the
single failure value `None`; it fails exactly when one of its checks
fails, and all failure causes yield the same indistinguishable `None`
(the specific error is only printed). -/
theorem c6_construction_all_or_none (o o' : NewOracle) :
    (failCause o = none →
      musicNew o
        = some { al_source := o.genSource, al_buffers := o.genBuffers,
                 file := o.openResult, file_infos := o.infos,
                 sample_to_read := 50000,
                 sample_format := o.channelsFormat.getD 0,
                 sound_tags := o.tags, is_looping := false,
                 looping_sender := none, thread_handle := none }) ∧
    (failCause o ≠ none → musicNew o = none) ∧
    (failCause o ≠ none → failCause o' ≠ none → musicNew o = musicNew o') := by
  obtain ⟨ctx, openR, infos, gs, gb, fmt, err, tg⟩ := o
  obtain ⟨ctx', openR', infos', gs', gb', fmt', err', tg'⟩ := o'
  cases ctx <;> cases openR <;> cases fmt <;> cases err <;>
    cases ctx' <;> cases openR' <;> cases fmt' <;> cases err' <;>
      simp [musicNew, failCause]

/-- Concrete check of `c6_construction_all_or_none` on a succeeding
oracle and on the two failing oracles. -/
theorem c6_construction_all_or_none_w :
    musicNew { oOpenFail with openResult := some 7 }
      = some { al_source := 1, al_buffers := (2, 3), file := some 7,
               file_infos := { samplerate := 44100, channels := 2 },
               sample_to_read := 50000, sample_format := 4, sound_tags := 0,
               is_looping := false, looping_sender := none,
               thread_handle := none } ∧
    musicNew oOpenFail = musicNew oFormatFail :=
  ⟨(c6_construction_all_or_none { oOpenFail with openResult := some 7 } oOpenFail).1 (by decide),
   (c6_construction_all_or_none oOpenFail oFormatFail).2.2 (by decide) (by decide)⟩

/-- Oracle on which everything succeeds except that the backend reports
a pending OpenAL error at the construction-time check. -/
def oHwFail : NewOracle :=
  { oOpenFail with openResult := some 7, alError := some 1 }

/-- Claim C7 (refuted on the code): a hardware-backend error at the
construction-time check (`al::openal_has_error()`, `music.rs` 122-125)
is fatal — `Music::new` returns `None` — rather than a logged,
non-fatal condition after which construction still succeeds. -/
theorem c7_hw_error_fatal_cex :
    failCause oHwFail = some FailCause.hardwareError ∧
    musicNew oHwFail = none := by
  decide

/-- Claim C7 (amended): a backend error at the construction-time check
makes `Music::new` return the failure value `None`; and the refill-loop
body contains no hardware-error check at all (`music.rs` 195-225), so
there is no log-and-skip-iteration handling there — the only logging of
a backend problem by the worker is the one-time context check at
startup, after which the worker proceeds regardless. -/
theorem c7_hw_error_construction_fatal (o : NewOracle) (w : WIn)
    (h : failCause o = some FailCause.hardwareError) :
    musicNew o = none ∧ WAction.alErrorCheck ∉ (workerIteration w).actions := by
  constructor
  · obtain ⟨ctx, openR, infos, gs, gb, fmt, err, tg⟩ := o
    cases ctx <;> cases openR <;> cases fmt <;> cases err <;>
      simp_all [musicNew, failCause]
  · by_cases h1 : w.status = ALState.playing <;>
      by_cases h2 : w.processed ≠ 0 <;>
        by_cases h3 : (pollOnce (w.queue, w.is_looping)).2 = true ∧ w.readFirst = 0 <;>
          simp [workerIteration, h1, h2, h3]

/-- Concrete check of `c7_hw_error_construction_fatal` at `oHwFail`
and an idle worker iteration. -/
theorem c7_hw_error_construction_fatal_w :
    musicNew oHwFail = none ∧
    WAction.alErrorCheck ∉ (workerIteration
      { status := ALState.paused, is_looping := false, queue := [],
        processed := 0, readFirst := 0, readSeek := 0,
        newStatus := ALState.paused }).actions :=
  c7_hw_error_construction_fatal oHwFail
    { status := ALState.paused, is_looping := false, queue := [],
      processed := 0, readFirst := 0, readSeek := 0,
      newStatus := ALState.paused } (by decide)

/-- A worker iteration whose last observed status is `Paused` while a
`set_looping(false)` command is queued. -/
def wPausedCex : WIn :=
  { status := ALState.paused, is_looping := true, queue := [false],
    processed := 1, readFirst := 0, readSeek := 0,
    newStatus := ALState.paused }

/-- Claim C8 (refuted on the code): the worker performs its
non-blocking receive only inside the `status == AL_PLAYING` guard
(`music.rs` 198-201).  In an iteration whose last observed status is
`Paused` the queued value is not consumed and the flag stays stale, so
the flag is not refreshed once per poll interval in every iteration. -/
theorem c8_paused_skips_recv_cex :
    (workerIteration wPausedCex).is_looping = true ∧
    (workerIteration wPausedCex).queue = [false] ∧
    WAction.tryRecv ∉ (workerIteration wPausedCex).actions := by
  decide

/-- Claim C8 (amended): the worker performs exactly one non-blocking
receive per iteration whose last observed status is `Playing` (taking
the oldest queued value and keeping the prior flag when the queue is
empty), and performs none in any other iteration, leaving flag and
queue untouched; combined with the FIFO queue this means staleness can
exceed one poll interval. -/
theorem c8_recv_only_when_playing (w : WIn) :
    (w.status = ALState.playing →
      WAction.tryRecv ∈ (workerIteration w).actions ∧
      (workerIteration w).is_looping = (pollOnce (w.queue, w.is_looping)).2 ∧
      (workerIteration w).queue = (pollOnce (w.queue, w.is_looping)).1) ∧
    (w.status ≠ ALState.playing →
      WAction.tryRecv ∉ (workerIteration w).actions ∧
      (workerIteration w).is_looping = w.is_looping ∧
      (workerIteration w).queue = w.queue) := by
  by_cases h1 : w.status = ALState.playing <;>
    by_cases h2 : w.processed ≠ 0 <;>
      by_cases h3 : (pollOnce (w.queue, w.is_looping)).2 = true ∧ w.readFirst = 0 <;>
        simp [workerIteration, h1, h2, h3]

/-- Concrete check of `c8_recv_only_when_playing` on `wPausedCex` and
on its `Playing` variant. -/
theorem c8_recv_only_when_playing_w :
    (WAction.tryRecv ∉ (workerIteration wPausedCex).actions ∧
      (workerIteration wPausedCex).is_looping = wPausedCex.is_looping ∧
      (workerIteration wPausedCex).queue = wPausedCex.queue) ∧
    (WAction.tryRecv ∈ (workerIteration { wPausedCex with status := ALState.playing }).actions ∧
      (workerIteration { wPausedCex with status := ALState.playing }).is_looping
        = (pollOnce (wPausedCex.queue, wPausedCex.is_looping)).2 ∧
      (workerIteration { wPausedCex with status := ALState.playing }).queue
        = (pollOnce (wPausedCex.queue, wPausedCex.is_looping)).1) :=
  ⟨(c8_recv_only_when_playing wPausedCex).2 (by decide),
   (c8_recv_only_when_playing { wPausedCex with status := ALState.playing }).1 rfl⟩

/-- Claim C9: for every `Music` value (sender present or not, any
channel content) and every boolean `b`, `set_looping(b)` followed by
`is_looping()` returns `b` — the local flag mirrors the requested value
immediately, independently of what the worker has observed. -/
theorem c9_set_then_get_looping (m : MusicM) (q : List Bool) (b : Bool) :
    isLoopingQuery (setLooping m q b).1 = b := rfl

/-- Claim C10: every `Music` value produced by `Music::new` starts with
looping disabled and with neither a worker thread nor a command-channel
sender. -/
theorem c10_fresh_music_defaults (o : NewOracle) (m : MusicM)
    (h : musicNew o = some m) :
    m.is_looping = false ∧ m.looping_sender = none ∧ m.thread_handle = none := by
  obtain ⟨ctx, openR, infos, gs, gb, fmt, err, tg⟩ := o
  cases ctx <;> cases openR <;> cases fmt <;> cases err <;>
    simp_all [musicNew]
  simp [← h]

/-- Concrete check of `c10_fresh_music_defaults` on a succeeding
oracle. -/
theorem c10_fresh_music_defaults_w :
    ({ al_source := 1, al_buffers := (2, 3), file := some 7,
       file_infos := { samplerate := 44100, channels := 2 },
       sample_to_read := 50000, sample_format := 4, sound_tags := 0,
       is_looping := false, looping_sender := none,
       thread_handle := none } : MusicM).is_looping = false ∧
    ({ al_source := 1, al_buffers := (2, 3), file := some 7,
       file_infos := { samplerate := 44100, channels := 2 },
       sample_to_read := 50000, sample_format := 4, sound_tags := 0,
       is_looping := false, looping_sender := none,
       thread_handle := none } : MusicM).looping_sender = none ∧
    ({ al_source := 1, al_buffers := (2, 3), file := some 7,
       file_infos := { samplerate := 44100, channels := 2 },
       sample_to_read := 50000, sample_format := 4, sound_tags := 0,
       is_looping := false, looping_sender := none,
       thread_handle := none } : MusicM).thread_handle = none :=
  c10_fresh_music_defaults { oOpenFail with openResult := some 7 } _ (by decide)
